import Mathlib

/-!
Shallow embedding of the data-aggregation and rendering logic of
`src/api/index.ts` (korea_transit_mcp), together with proofs about it.

The embedding models:
* the JavaScript string/array primitives the code relies on
  (`slice`, `includes`, `startsWith`, `trim`, `toLowerCase`, `||` defaulting,
  `toLocaleString`, `JSON.stringify(v, null, 2)`);
* the record types of the four upstream feeds;
* the per-tool handler functions.  An upstream fetch-and-parse is modelled
  as an `Except String records` value (`Except.error msg` is a thrown
  exception whose message `getErrorMessage` would extract); the paginated
  directory feeds are modelled as a function from page index to such an
  outcome.

Strings are modelled as Lean `String`s and lengths as character counts.
-/

namespace KoreaTransit

/-! ### JavaScript primitives -/

/-- Clamp a JS `slice` index into `[0, len]`: a negative index counts from
the end of the array. -/
def jsIdx (len : Nat) (i : Int) : Nat :=
  if i < 0 then ((len : Int) + i).toNat else min i.toNat len

/-- `Array.prototype.slice(b, e)` (and `String.prototype.slice` on `.data`). -/
def jsSlice {α : Type} (l : List α) (b e : Int) : List α :=
  (l.take (jsIdx l.length e)).drop (jsIdx l.length b)

/-- `String.prototype.slice(b, e)`. -/
def strSlice (s : String) (b e : Int) : String :=
  String.mk (jsSlice s.data b e)

/-- `String.prototype.includes(sub)`: substring containment. -/
def strIncludes (s sub : String) : Bool :=
  decide (sub.data <:+: s.data)

/-- `String.prototype.startsWith(q)`. -/
def jsStartsWith (s q : String) : Bool :=
  q.data.isPrefixOf s.data

/-- `String.prototype.toLowerCase()` (ASCII letters; other characters,
including Hangul, are fixed points). -/
def jsToLower (s : String) : String :=
  String.mk (s.data.map Char.toLower)

def dropLeadingWs (l : List Char) : List Char :=
  l.dropWhile Char.isWhitespace

def dropTrailingWs (l : List Char) : List Char :=
  (l.reverse.dropWhile Char.isWhitespace).reverse

/-- `String.prototype.trim()`. -/
def jsTrim (s : String) : String :=
  String.mk (dropTrailingWs (dropLeadingWs s.data))

/-- JS `x || d` for an optional numeric argument: the default is used both
when the argument is absent and when it is `0` (a falsy value). -/
def jsOrDefault (v : Option Int) (d : Int) : Int :=
  match v with
  | none => d
  | some x => if x = 0 then d else x

/-- JS `x || d` for an optional string argument: the default is used both
when the argument is absent and when it is the empty string. -/
def jsOrStr (v : Option String) (d : String) : String :=
  match v with
  | none => d
  | some x => if x = "" then d else x

/-- Thousands grouping of a reversed digit list: three digits, then a
separator, repeatedly. -/
def groupRev : List Char → List Char
  | [] => []
  | [d1] => [d1]
  | [d1, d2] => [d1, d2]
  | [d1, d2, d3] => [d1, d2, d3]
  | d1 :: d2 :: d3 :: rest => d1 :: d2 :: d3 :: ',' :: groupRev rest

/-- `Number.prototype.toLocaleString()` for a natural number in the default
locale: decimal digits with `,` as thousands separator. -/
def toLocaleStringNat (n : Nat) : String :=
  String.mk ((groupRev (toString n).data.reverse).reverse)

/-! ### `JSON.stringify(v, null, 2)`

The handlers build JSON bodies of a fixed, statically known shape, so the
stringifier is embedded as indentation-aware combinators: `jsonObj d fields`
renders an object whose closing brace sits at depth `d` and whose already
rendered field lines (produced by `jsonField (d+1) …`) sit one level deeper,
exactly as `JSON.stringify` with a 2-space indent does.  An optional field
whose value is `undefined` is omitted by `JSON.stringify`, which the call
sites model by appending the field list conditionally. -/

def jsonEscapeChar (c : Char) : List Char :=
  if c = '"' then ['\\', '"']
  else if c = '\\' then ['\\', '\\']
  else if c = '\n' then ['\\', 'n']
  else if c = '\r' then ['\\', 'r']
  else if c = '\t' then ['\\', 't']
  else if c = Char.ofNat 8 then ['\\', 'b']
  else if c = Char.ofNat 12 then ['\\', 'f']
  else if c.toNat < 32 then
    ['\\', 'u', '0', '0',
     (if c.toNat / 16 < 10 then Char.ofNat (48 + c.toNat / 16) else Char.ofNat (87 + c.toNat / 16)),
     (if c.toNat % 16 < 10 then Char.ofNat (48 + c.toNat % 16) else Char.ofNat (87 + c.toNat % 16))]
  else [c]

def jsonEscape (s : String) : String :=
  String.mk (s.data.flatMap jsonEscapeChar)

def quoteStr (s : String) : String :=
  "\"" ++ jsonEscape s ++ "\""

def indentStr (d : Nat) : String :=
  String.mk (List.replicate (2 * d) ' ')

/-- Join rendered lines with a separator. -/
def joinSep (sep : String) : List String → String
  | [] => ""
  | [x] => x
  | x :: rest => x ++ sep ++ joinSep sep rest

/-- One rendered object field line at depth `d`. -/
def jsonField (d : Nat) (key : String) (val : String) : String :=
  indentStr d ++ quoteStr key ++ ": " ++ val

/-- A rendered object whose braces sit at depth `d` (fields carry their own
indent). -/
def jsonObj (d : Nat) (fields : List String) : String :=
  match fields with
  | [] => "\x7b\x7d"
  | _ => "\x7b\n" ++ joinSep ",\n" fields ++ "\n" ++ indentStr d ++ "\x7d"

/-- A rendered array whose brackets sit at depth `d`. -/
def jsonArr (d : Nat) (items : List String) : String :=
  match items with
  | [] => "[]"
  | _ => "[\n" ++ joinSep ",\n" (items.map (fun s => indentStr (d + 1) ++ s)) ++ "\n" ++ indentStr d ++ "]"

/-! ### Upstream record types (`src/api/index.ts` lines 19-39) -/

structure SubwayArrival where
  subwayId : String
  bstatnNm : String
  arvlMsg2 : String
  updnLine : String
  btrainNo : Option String
deriving DecidableEq

structure BusStation where
  STOPS_NM : String
  STOPS_NO : String
  STOPS_TYPE : Option String
deriving DecidableEq

structure BikeStation where
  stationName : String
  stationId : String
  parkingBikeTotCnt : Nat
  rackTotCnt : Nat
deriving DecidableEq

structure BusArrival where
  stNm : String
  arsId : String
  rtNm : String
  busRouteAbrv : Option String
  arrmsg1 : String
  arrmsg2 : String
  routeType : Option String
  stationTp : Option String
deriving DecidableEq

/-! ### Constants and lookup tables (lines 77-90, 240-246) -/

def CHARACTER_LIMIT : Nat := 25000

def SUBWAY_LINE_MAP : List (String × String) :=
  [("1001", "1호선"), ("1002", "2호선"), ("1003", "3호선"),
   ("1004", "4호선"), ("1005", "5호선"), ("1006", "6호선"),
   ("1007", "7호선"), ("1008", "8호선"), ("1009", "9호선"),
   ("1077", "신분당선"), ("1063", "경의중앙선"), ("1065", "공항철도")]

def BUS_TYPE_MAP : List (String × String) :=
  [("1", "일반"), ("2", "좌석"), ("3", "마을"),
   ("4", "광역"), ("5", "공항"), ("6", "간선"), ("7", "지선")]

def getSubwayLineName (lineCode : String) : String :=
  (SUBWAY_LINE_MAP.lookup lineCode).getD lineCode

def getBusTypeName (typeCode : String) : String :=
  (BUS_TYPE_MAP.lookup typeCode).getD "기타"

/-! ### truncateResponse (lines 248-254) -/

/-- The truncation notice appended by `truncateResponse`. -/
def truncNotice : String :=
  "\n\n... (응답이 " ++ toLocaleStringNat CHARACTER_LIMIT ++ "자 제한으로 잘렸습니다)"

def truncateResponse (content : String) : String :=
  if content.length ≤ CHARACTER_LIMIT then content
  else strSlice content 0 ((CHARACTER_LIMIT : Int) - 100) ++ truncNotice

/-! ### Shared argument handling -/

/-- `Math.min(args.limit || 10, 20)` (lines 279, 354, 412, 489). -/
def effLimit (limitArg : Option Int) : Int :=
  min (jsOrDefault limitArg 10) 20

/-- `args.station_name.replace(/역$/u, "")`: the anchored regex removes one
trailing `역` character, if present. -/
def stripStationSuffix (s : String) : String :=
  if s.data.getLast? = some '역' then String.mk s.data.dropLast else s

/-- `args.station_name.replace(/역$/u, "").trim()` (lines 278, 555). -/
def normalizeStation (s : String) : String :=
  jsTrim (stripStationSuffix s)

/-- The station-keyed part of the rail-arrival request URL (line 283):
`.../realtimeStationArrival/0/${limit}/${encodeURIComponent(stationName)}`.
`encodeURIComponent` is injective, so it is elided and the decoded station
name stands for the encoded query-string segment. -/
def subwayRequestPath (stationNameArg : String) (limitArg : Option Int) : String :=
  "/json/realtimeStationArrival/0/" ++ toString (effLimit limitArg) ++ "/"
    ++ normalizeStation stationNameArg

/-! ### transit_get_subway_arrival (lines 273-325) -/

def subwayArrivalJsonItem (arr : SubwayArrival) : String :=
  jsonObj 2
    ([jsonField 3 "line" (quoteStr (getSubwayLineName arr.subwayId)),
      jsonField 3 "destination" (quoteStr arr.bstatnNm),
      jsonField 3 "message" (quoteStr arr.arvlMsg2),
      jsonField 3 "direction" (quoteStr arr.updnLine)]
     ++ (match arr.btrainNo with
         | some t => [jsonField 3 "trainNumber" (quoteStr t)]
         | none => []))

def subwayArrivalJson (stationName : String) (arrivals : List SubwayArrival) : String :=
  jsonObj 0
    [jsonField 1 "station" (quoteStr stationName),
     jsonField 1 "count" (toString arrivals.length),
     jsonField 1 "arrivals" (jsonArr 1 (arrivals.map subwayArrivalJsonItem))]

def subwayArrivalMdItem (idx : Nat) (arr : SubwayArrival) : String :=
  "### " ++ toString (idx + 1) ++ ". " ++ getSubwayLineName arr.subwayId
    ++ " - " ++ arr.bstatnNm ++ "행\n"
    ++ "- **도착**: " ++ arr.arvlMsg2 ++ "\n"
    ++ "- **방향**: " ++ (if arr.updnLine = "상행" then "⬆️ 상행" else "⬇️ 하행") ++ "\n\n"

def subwayArrivalMd (stationName : String) (arrivals : List SubwayArrival) : String :=
  "## 🚇 " ++ stationName ++ "역 실시간 도착정보\n\n"
    ++ "> 총 " ++ toString arrivals.length ++ "개의 열차 정보\n\n"
    ++ String.join (arrivals.enum.map (fun p => subwayArrivalMdItem p.1 p.2))

/-- The requested limit is consumed only by the request URL
(`subwayRequestPath`), never by the rendering below. -/
def transitGetSubwayArrival (stationNameArg : String) (_limitArg : Option Int)
    (fmt : Option String) (upstream : Except String (List SubwayArrival)) : String :=
  let stationName := normalizeStation stationNameArg
  let format := jsOrStr fmt "markdown"
  match upstream with
  | .error e => "❌ 지하철 정보 조회 실패: " ++ e
  | .ok arrivals =>
    if format = "json" then subwayArrivalJson stationName arrivals
    else if arrivals.length = 0 then
      "## 🚇 " ++ stationName ++ "역 도착정보\n\n현재 도착 예정 열차가 없습니다."
    else truncateResponse (subwayArrivalMd stationName arrivals)

/-! ### transit_get_bus_arrival (lines 348-404) -/

/-- `arrivals.slice(0, limit)`: the bus arrivals actually rendered
(lines 375, 393). -/
def busArrivalsShown (limitArg : Option Int) (arrivals : List BusArrival) : List BusArrival :=
  jsSlice arrivals 0 (effLimit limitArg)

def busArrivalJsonItem (bus : BusArrival) : String :=
  jsonObj 2
    ([jsonField 3 "routeName" (quoteStr bus.rtNm)]
     ++ (match bus.busRouteAbrv with
         | some a => [jsonField 3 "routeAbbr" (quoteStr a)]
         | none => [])
     ++ [jsonField 3 "arrival1" (quoteStr bus.arrmsg1),
         jsonField 3 "arrival2" (quoteStr bus.arrmsg2),
         jsonField 3 "routeType" (quoteStr (getBusTypeName (jsOrStr bus.routeType "1")))])

def busArrivalMdItem (idx : Nat) (bus : BusArrival) : String :=
  "### " ++ toString (idx + 1) ++ ". " ++ bus.rtNm
    ++ " (" ++ getBusTypeName (jsOrStr bus.routeType "1") ++ ")\n"
    ++ "- **첫번째 버스**: " ++ bus.arrmsg1 ++ "\n"
    ++ "- **두번째 버스**: " ++ bus.arrmsg2 ++ "\n\n"

def busArrivalMd (arsId : String) (limitArg : Option Int) (arrivals : List BusArrival) : String :=
  "## 🚌 " ++ jsOrStr (arrivals.head?.map BusArrival.stNm) "알 수 없음" ++ " 버스 도착정보\n\n"
    ++ "> 정류장 번호: " ++ arsId ++ " | " ++ toString arrivals.length ++ "개 노선\n\n"
    ++ String.join ((busArrivalsShown limitArg arrivals).enum.map
        (fun p => busArrivalMdItem p.1 p.2))

def transitGetBusArrival (arsId : String) (limitArg : Option Int)
    (fmt : Option String) (upstream : Except String (List BusArrival)) : String :=
  let format := jsOrStr fmt "markdown"
  match upstream with
  | .error e => "❌ 버스 도착정보 조회 실패: " ++ e ++ "\n\n💡 정류장 번호가 올바른지 확인해 주세요."
  | .ok arrivals =>
    if format = "json" then
      jsonObj 0
        [jsonField 1 "stationName" (quoteStr (jsOrStr (arrivals.head?.map BusArrival.stNm) "알 수 없음")),
         jsonField 1 "arsId" (quoteStr arsId),
         jsonField 1 "count" (toString arrivals.length),
         jsonField 1 "arrivals" (jsonArr 1 ((busArrivalsShown limitArg arrivals).map busArrivalJsonItem))]
    else if arrivals.length = 0 then
      "## 🚌 버스 도착정보 (정류장: " ++ arsId ++ ")\n\n현재 도착 예정 버스가 없습니다."
    else truncateResponse (busArrivalMd arsId limitArg arrivals)

/-! ### Paginated directory scan (lines 416-434, 492-511)

Both directory searches run the same loop: fetch fixed-size pages, filter
each page with the tool's match predicate, and stop early once
`results.length >= limit * 3` or a short page arrives; a thrown fetch error
aborts the whole search.  The loop is embedded with the remaining page
budget as fuel (5 pages for bus stops, 3 for bike stations); the second
component of the result counts the page fetches actually issued. -/

def pageSize : Nat := 1000

def scanPages {α : Type} (pred : α → Bool) (limit : Int)
    (pages : Nat → Except String (List α)) :
    Nat → Nat → List α → Except String (List α) × Nat
  | 0, _, acc => (.ok acc, 0)
  | fuel + 1, page, acc =>
    match pages page with
    | .error e => (.error e, 1)
    | .ok rows =>
      let acc2 := acc ++ rows.filter pred
      if limit * 3 ≤ (acc2.length : Int) ∨ rows.length < pageSize then (.ok acc2, 1)
      else
        let r := scanPages pred limit pages fuel (page + 1) acc2
        (r.1, r.2 + 1)

/-! ### transit_search_bus_station (lines 406-481) -/

/-- `s.STOPS_NM?.includes(query) || s.STOPS_NO === query` (lines 428-430).
Under the declared record type `STOPS_NM` is a string, so the optional
chaining is the plain method call. -/
def busStationMatches (query : String) (s : BusStation) : Bool :=
  strIncludes s.STOPS_NM query || s.STOPS_NO == query

/-- The comparator passed to `results.sort` (lines 437-447); `aName`/`bName`
are `a.STOPS_NM || ""`, which under the declared string type is `a.STOPS_NM`
itself. -/
def stationCompare (query : String) (a b : BusStation) : Int :=
  let aStarts := jsStartsWith a.STOPS_NM query
  let bStarts := jsStartsWith b.STOPS_NM query
  if aStarts && !bStarts then -1
  else if !aStarts && bStarts then 1
  else (a.STOPS_NM.length : Int) - (b.STOPS_NM.length : Int)

/-- `a` sorts no later than `b` under the comparator. -/
def stationLeB (query : String) (a b : BusStation) : Bool :=
  decide (stationCompare query a b ≤ 0)

/-- `Array.prototype.sort` is a stable sort ordered by the comparator. -/
def sortStations (query : String) (l : List BusStation) : List BusStation :=
  l.mergeSort (stationLeB query)

/-- The stop-directory scan run by the search tool: page size 1000, at most
5 pages starting at page 1, empty initial accumulator. -/
def searchScan (queryArg : String) (limitArg : Option Int)
    (pages : Nat → Except String (List BusStation)) :
    Except String (List BusStation) × Nat :=
  scanPages (busStationMatches (jsTrim queryArg)) (effLimit limitArg) pages 5 1 []

/-- The number of predicate matches contained in pages
`startPage … startPage + count - 1`, a failed page contributing none. -/
def scanMatches {α : Type} (pred : α → Bool) (pages : Nat → Except String (List α))
    (startPage count : Nat) : Nat :=
  ((List.range' startPage count).flatMap (fun i =>
    match pages i with
    | .ok rows => rows.filter pred
    | .error _ => [])).length

/-- `sortedResults.slice(0, limit)`: the stations actually rendered
(line 449). -/
def busStationsShown (query : String) (limitArg : Option Int)
    (results : List BusStation) : List BusStation :=
  jsSlice (sortStations query results) 0 (effLimit limitArg)

def busStationJsonItem (s : BusStation) : String :=
  jsonObj 2
    [jsonField 3 "name" (quoteStr s.STOPS_NM),
     jsonField 3 "arsId" (quoteStr s.STOPS_NO),
     jsonField 3 "type" (quoteStr (jsOrStr s.STOPS_TYPE "일반"))]

def busStationMdItem (idx : Nat) (s : BusStation) : String :=
  "### " ++ toString (idx + 1) ++ ". " ++ s.STOPS_NM ++ "\n"
    ++ "- **정류장 번호**: `" ++ s.STOPS_NO ++ "`\n\n"

def busStationsMd (query : String) (stations : List BusStation) : String :=
  "## 🔍 버스 정류장 검색: \"" ++ query ++ "\"\n\n"
    ++ "> " ++ toString stations.length ++ "개 정류장 발견\n\n"
    ++ String.join (stations.enum.map (fun p => busStationMdItem p.1 p.2))
    ++ "---\n> 💡 **Tip**: 도착정보 조회 시 정류장 번호(arsId)를 사용하세요.\n"

def transitSearchBusStation (queryArg : String) (limitArg : Option Int)
    (fmt : Option String) (pages : Nat → Except String (List BusStation)) : String :=
  let query := jsTrim queryArg
  let format := jsOrStr fmt "markdown"
  match (searchScan queryArg limitArg pages).1 with
  | .error e => "❌ 정류장 검색 실패: " ++ e
  | .ok results =>
    let stations := busStationsShown query limitArg results
    if format = "json" then
      jsonObj 0
        [jsonField 1 "query" (quoteStr query),
         jsonField 1 "count" (toString stations.length),
         jsonField 1 "stations" (jsonArr 1 (stations.map busStationJsonItem))]
    else if stations.length = 0 then
      "## 🔍 버스 정류장 검색: \"" ++ query ++ "\"\n\n검색 결과가 없습니다."
    else truncateResponse (busStationsMd query stations)

/-! ### transit_get_bike_station (lines 483-549) -/

/-- `s.stationName?.toLowerCase().includes(query.toLowerCase())`
(lines 505-507). -/
def bikeStationMatches (query : String) (s : BikeStation) : Bool :=
  strIncludes (jsToLower s.stationName) (jsToLower query)

/-- The bike-directory scan run by the bike tool: page size 1000, at most
3 pages starting at page 1, empty initial accumulator. -/
def bikeScan (queryArg : String) (limitArg : Option Int)
    (pages : Nat → Except String (List BikeStation)) :
    Except String (List BikeStation) × Nat :=
  scanPages (bikeStationMatches (jsTrim queryArg)) (effLimit limitArg) pages 3 1 []

/-- `results.slice(0, limit)`: the bike stations actually rendered
(line 513); no ranking is applied on this path. -/
def bikeStationsShown (limitArg : Option Int) (results : List BikeStation) : List BikeStation :=
  jsSlice results 0 (effLimit limitArg)

/-- `Math.round((parkingBikeTotCnt / rackTotCnt) * 100)` as exact rational
rounding (round half up). -/
def availRate (parking rack : Nat) : Nat :=
  if 0 < rack then (200 * parking + rack) / (2 * rack) else 0

def rateEmoji (rate : Nat) : String :=
  if 50 ≤ rate then "🟢" else if 20 ≤ rate then "🟡" else "🔴"

def bikeStationJsonItem (s : BikeStation) : String :=
  jsonObj 2
    [jsonField 3 "name" (quoteStr s.stationName),
     jsonField 3 "id" (quoteStr s.stationId),
     jsonField 3 "available" (toString s.parkingBikeTotCnt),
     jsonField 3 "rackTotal" (toString s.rackTotCnt)]

def bikeStationMdItem (idx : Nat) (s : BikeStation) : String :=
  "### " ++ toString (idx + 1) ++ ". " ++ s.stationName ++ "\n"
    ++ "- **대여 가능**: " ++ rateEmoji (availRate s.parkingBikeTotCnt s.rackTotCnt)
    ++ " " ++ toString s.parkingBikeTotCnt ++ "대 / " ++ toString s.rackTotCnt
    ++ "대 (" ++ toString (availRate s.parkingBikeTotCnt s.rackTotCnt) ++ "%)\n\n"

def bikeStationsMd (query : String) (stations : List BikeStation) : String :=
  "## 🚲 따릉이 대여소 검색: \"" ++ query ++ "\"\n\n"
    ++ "> " ++ toString stations.length ++ "개 대여소 발견\n\n"
    ++ String.join (stations.enum.map (fun p => bikeStationMdItem p.1 p.2))

def transitGetBikeStation (queryArg : String) (limitArg : Option Int)
    (fmt : Option String) (pages : Nat → Except String (List BikeStation)) : String :=
  let query := jsTrim queryArg
  let format := jsOrStr fmt "markdown"
  match (bikeScan queryArg limitArg pages).1 with
  | .error e => "❌ 따릉이 대여소 검색 실패: " ++ e
  | .ok results =>
    let stations := bikeStationsShown limitArg results
    if format = "json" then
      jsonObj 0
        [jsonField 1 "query" (quoteStr query),
         jsonField 1 "count" (toString stations.length),
         jsonField 1 "stations" (jsonArr 1 (stations.map bikeStationJsonItem))]
    else if stations.length = 0 then
      "## 🚲 따릉이 대여소 검색: \"" ++ query ++ "\"\n\n검색 결과가 없습니다."
    else truncateResponse (bikeStationsMd query stations)

/-! ### transit_get_combined_info (lines 551-667)

Each of the three lookups is wrapped in its own `try { … } catch { /* 무시 */ }`
around an accumulation buffer that starts empty, so a thrown fetch error
leaves that source's buffer empty and the remaining code never sees the
failure.  The three fetch outcomes are the function's last three arguments. -/

def combinedSubwayJsonItem (arr : SubwayArrival) : String :=
  jsonObj 3
    [jsonField 4 "line" (quoteStr (getSubwayLineName arr.subwayId)),
     jsonField 4 "destination" (quoteStr arr.bstatnNm),
     jsonField 4 "message" (quoteStr arr.arvlMsg2)]

def combinedBusJsonItem (s : BusStation) : String :=
  jsonObj 3
    [jsonField 4 "name" (quoteStr s.STOPS_NM),
     jsonField 4 "arsId" (quoteStr s.STOPS_NO)]

def combinedBikeJsonItem (s : BikeStation) : String :=
  jsonObj 3
    [jsonField 4 "name" (quoteStr s.stationName),
     jsonField 4 "available" (toString s.parkingBikeTotCnt),
     jsonField 4 "total" (toString s.rackTotCnt)]

def combinedJson (locationArg : String) (subwayData : List SubwayArrival)
    (busStations : List BusStation) (bikeStations : List BikeStation) : String :=
  jsonObj 0
    [jsonField 1 "location" (quoteStr locationArg),
     jsonField 1 "subway" (jsonObj 1
       [jsonField 2 "count" (toString subwayData.length),
        jsonField 2 "arrivals" (jsonArr 2 ((jsSlice subwayData 0 5).map combinedSubwayJsonItem))]),
     jsonField 1 "bus" (jsonObj 1
       [jsonField 2 "count" (toString busStations.length),
        jsonField 2 "stations" (jsonArr 2 (busStations.map combinedBusJsonItem))]),
     jsonField 1 "bike" (jsonObj 1
       [jsonField 2 "count" (toString bikeStations.length),
        jsonField 2 "stations" (jsonArr 2 (bikeStations.map combinedBikeJsonItem))])]

def combinedMd (locationArg : String) (subwayData : List SubwayArrival)
    (busStations : List BusStation) (bikeStations : List BikeStation) : String :=
  "# 📍 " ++ locationArg ++ " 주변 교통정보\n\n"
    ++ "## 🚇 지하철 도착정보\n\n"
    ++ (if subwayData.length = 0 then "주변 지하철역 정보가 없습니다.\n\n"
        else String.join ((jsSlice subwayData 0 5).map (fun arr =>
               "- **" ++ getSubwayLineName arr.subwayId ++ "** " ++ arr.bstatnNm
                 ++ "행: " ++ arr.arvlMsg2 ++ "\n")) ++ "\n")
    ++ "## 🚌 버스 정류장\n\n"
    ++ (if busStations.length = 0 then "주변 버스 정류장 정보가 없습니다.\n\n"
        else String.join (busStations.map (fun s =>
               "- **" ++ s.STOPS_NM ++ "** (" ++ s.STOPS_NO ++ ")\n")) ++ "\n")
    ++ "## 🚲 따릉이 대여소\n\n"
    ++ (if bikeStations.length = 0 then "주변 따릉이 대여소 정보가 없습니다.\n"
        else String.join (bikeStations.map (fun s =>
               "- **" ++ s.stationName ++ "**: "
                 ++ rateEmoji (availRate s.parkingBikeTotCnt s.rackTotCnt)
                 ++ " " ++ toString s.parkingBikeTotCnt ++ "대 이용가능\n")))

def transitGetCombinedInfo (locationArg : String) (fmt : Option String)
    (subwayFetch : Except String (List SubwayArrival))
    (busFetch : Except String (List BusStation))
    (bikeFetch : Except String (List BikeStation)) : String :=
  let location := normalizeStation locationArg
  let format := jsOrStr fmt "markdown"
  let subwayData : List SubwayArrival :=
    match subwayFetch with
    | .ok rows => rows
    | .error _ => []
  let busStations : List BusStation :=
    match busFetch with
    | .ok rows => jsSlice (rows.filter (fun s => strIncludes s.STOPS_NM location)) 0 3
    | .error _ => []
  let bikeStations : List BikeStation :=
    match bikeFetch with
    | .ok rows =>
      jsSlice (rows.filter (fun s => strIncludes (jsToLower s.stationName) (jsToLower location))) 0 3
    | .error _ => []
  if format = "json" then combinedJson locationArg subwayData busStations bikeStations
  else truncateResponse (combinedMd locationArg subwayData busStations bikeStations)

/-! ### Concrete sample data used in the theorems -/

/-- A 25001-character string, used to exercise the length bounds. -/
def bigStr : String := String.mk (List.replicate 25001 'a')

def sampleArrival1 : SubwayArrival := ⟨"1002", "성수", "3분 후 도착", "상행", none⟩

def sampleArrival2 : SubwayArrival := ⟨"1002", "신도림", "7분 후 도착", "하행", none⟩

def sampleStop1 : BusStation := ⟨"강남역", "10001", none⟩

def sampleStop2 : BusStation := ⟨"강남구청", "10002", none⟩

def sampleStop3 : BusStation := ⟨"강남", "10003", none⟩

/-! ## Supporting lemmas -/

lemma length_mk (l : List Char) : (String.mk l).length = l.length := rfl

lemma data_append (a b : String) : (a ++ b).data = a.data ++ b.data := rfl

lemma bigStr_length : bigStr.length = 25001 := by
  rw [show bigStr.length = (List.replicate 25001 'a').length from rfl, List.length_replicate]

lemma take_min_length {α : Type} (l : List α) (n : Nat) :
    l.take (min n l.length) = l.take n := by
  induction l generalizing n with
  | nil => simp
  | cons x xs ih =>
    cases n with
    | zero => simp
    | succ m => simp [List.length_cons, Nat.succ_min_succ, List.take_succ_cons, ih]

lemma jsIdx_zero (len : Nat) : jsIdx len 0 = 0 := by
  simp [jsIdx]

lemma jsIdx_nonneg (len : Nat) (e : Int) (h : 0 ≤ e) : jsIdx len e = min e.toNat len := by
  rw [jsIdx, if_neg (by omega)]

lemma jsSlice_zero {α : Type} (l : List α) (e : Int) (h : 0 ≤ e) :
    jsSlice l 0 e = l.take e.toNat := by
  unfold jsSlice
  rw [jsIdx_zero, jsIdx_nonneg _ _ h, List.drop_zero, take_min_length]

lemma length_jsSlice_zero {α : Type} (l : List α) (e : Int) (h : 0 ≤ e) :
    (jsSlice l 0 e).length = min e.toNat l.length := by
  rw [jsSlice_zero l e h, List.length_take]

lemma truncNotice_length : truncNotice.length = 30 := rfl

lemma truncateResponse_of_le {s : String} (h : s.length ≤ CHARACTER_LIMIT) :
    truncateResponse s = s := by
  rw [truncateResponse, if_pos h]

lemma truncateResponse_of_gt {s : String} (h : CHARACTER_LIMIT < s.length) :
    truncateResponse s = String.mk (s.data.take 24900) ++ truncNotice := by
  rw [truncateResponse, if_neg (by omega)]
  congr 1
  rw [strSlice, jsSlice_zero _ _ (by norm_num [CHARACTER_LIMIT]),
    show ((CHARACTER_LIMIT : Int) - 100).toNat = 24900 from rfl]

lemma length_truncateResponse_gt {s : String} (h : CHARACTER_LIMIT < s.length) :
    (truncateResponse s).length = 24900 + truncNotice.length := by
  have hd : s.length = s.data.length := rfl
  rw [truncateResponse_of_gt h, String.length_append, length_mk, List.length_take]
  have : min 24900 s.data.length = 24900 := by
    rw [CHARACTER_LIMIT] at h; omega
  omega

lemma length_truncateResponse_le (s : String) :
    (truncateResponse s).length ≤ CHARACTER_LIMIT := by
  by_cases h : s.length ≤ CHARACTER_LIMIT
  · rw [truncateResponse_of_le h]; exact h
  · rw [length_truncateResponse_gt (by omega), truncNotice_length, CHARACTER_LIMIT]
    norm_num

lemma effLimit_le_twenty (limitArg : Option Int) : effLimit limitArg ≤ 20 :=
  min_le_right _ _

lemma head?_dropWhile_false {α : Type} (p : α → Bool) (l : List α) {c : α}
    (h : (l.dropWhile p).head? = some c) : p c = false := by
  have := List.head?_dropWhile_not p l
  rw [h] at this
  exact this

lemma dropWhile_head?_self {α : Type} {p : α → Bool} {l : List α}
    (h : ∀ c, l.head? = some c → p c = false) : l.dropWhile p = l := by
  cases l with
  | nil => rfl
  | cons a t => simp [List.dropWhile_cons, h a rfl]

lemma dropWhile_idem {α : Type} (p : α → Bool) (l : List α) :
    (l.dropWhile p).dropWhile p = l.dropWhile p :=
  dropWhile_head?_self (fun _ hc => head?_dropWhile_false p l hc)

lemma dropTrailingWs_leading (l : List Char) : dropTrailingWs l <+: l := by
  have h : ((l.reverse.dropWhile Char.isWhitespace).reverse).reverse <:+ l.reverse := by
    rw [List.reverse_reverse]
    exact List.dropWhile_suffix _
  exact List.reverse_suffix.mp h

lemma head?_eq_of_leading {α : Type} {p m : List α} (h : p <+: m) (hp : p ≠ []) :
    p.head? = m.head? := by
  obtain ⟨t, rfl⟩ := h
  cases p with
  | nil => exact absurd rfl hp
  | cons a t' => rfl

lemma jsTrim_idem (s : String) : jsTrim (jsTrim s) = jsTrim s := by
  unfold jsTrim
  congr 1
  show dropTrailingWs (dropLeadingWs (dropTrailingWs (dropLeadingWs s.data)))
      = dropTrailingWs (dropLeadingWs s.data)
  set A := dropLeadingWs s.data with hA
  have h1 : dropLeadingWs (dropTrailingWs A) = dropTrailingWs A := by
    apply dropWhile_head?_self
    intro c hc
    have hne : dropTrailingWs A ≠ [] := by
      intro hnil
      rw [hnil] at hc
      exact Option.noConfusion hc
    have hhead : A.head? = some c := by
      rw [← head?_eq_of_leading (dropTrailingWs_leading A) hne]
      exact hc
    exact head?_dropWhile_false Char.isWhitespace s.data hhead
  rw [show dropLeadingWs (dropTrailingWs A) = (dropTrailingWs A).dropWhile Char.isWhitespace from rfl] at h1
  rw [show dropLeadingWs (dropTrailingWs A) = (dropTrailingWs A).dropWhile Char.isWhitespace from rfl]
  rw [h1]
  unfold dropTrailingWs
  rw [List.reverse_reverse, dropWhile_idem]

lemma jsToLower_idem (s : String) : jsToLower (jsToLower s) = jsToLower s := by
  have key : ∀ n (h : n.isValidChar), (Char.ofNatAux n h).toNat = n := by
    intro n h
    simp [Char.ofNatAux, Char.toNat, UInt32.toNat, BitVec.toNat_ofNatLt]
  have ch : ∀ c : Char, Char.toLower (Char.toLower c) = Char.toLower c := by
    intro c
    unfold Char.toLower
    by_cases h : c.toNat ≥ 65 ∧ c.toNat ≤ 90
    · rw [if_pos h]
      have hv : (c.toNat + 32).isValidChar := by left; omega
      have ht : (Char.ofNat (c.toNat + 32)).toNat = c.toNat + 32 := by
        rw [Char.ofNat, dif_pos hv]
        exact key _ hv
      rw [if_neg (by rw [ht]; omega)]
    · rw [if_neg h, if_neg h]
  unfold jsToLower
  congr 1
  show (s.data.map Char.toLower).map Char.toLower = s.data.map Char.toLower
  rw [List.map_map]
  exact List.map_congr_left (fun c _ => ch c)

lemma combinedMd_busEmpty (loc : String) (subL : List SubwayArrival) (bikeL : List BikeStation) :
    ∃ p q : String,
      combinedMd loc subL [] bikeL = p ++ "주변 버스 정류장 정보가 없습니다.\n\n" ++ q := by
  refine ⟨"# 📍 " ++ loc ++ " 주변 교통정보\n\n" ++ "## 🚇 지하철 도착정보\n\n"
      ++ (if subL.length = 0 then "주변 지하철역 정보가 없습니다.\n\n"
          else String.join ((jsSlice subL 0 5).map (fun arr =>
                 "- **" ++ getSubwayLineName arr.subwayId ++ "** " ++ arr.bstatnNm
                   ++ "행: " ++ arr.arvlMsg2 ++ "\n")) ++ "\n")
      ++ "## 🚌 버스 정류장\n\n",
    "## 🚲 따릉이 대여소\n\n"
      ++ (if bikeL.length = 0 then "주변 따릉이 대여소 정보가 없습니다.\n"
          else String.join (bikeL.map (fun s =>
                 "- **" ++ s.stationName ++ "**: "
                   ++ rateEmoji (availRate s.parkingBikeTotCnt s.rackTotCnt)
                   ++ " " ++ toString s.parkingBikeTotCnt ++ "대 이용가능\n"))), ?_⟩
  simp only [combinedMd, List.length_nil, reduceIte, String.append_assoc]

lemma scanPages_count_le {α : Type} (pred : α → Bool) (limit : Int)
    (pages : Nat → Except String (List α)) :
    ∀ (fuel startPage : Nat) (acc : List α),
      (scanPages pred limit pages fuel startPage acc).2 ≤ fuel := by
  intro fuel
  induction fuel with
  | zero => intro sp acc; simp [scanPages]
  | succ n ih =>
    intro sp acc
    rw [scanPages]
    cases hp : pages sp with
    | error e => simp
    | ok rows =>
      simp only []
      split
      · simp
      · have := ih (sp + 1) (acc ++ rows.filter pred)
        simp only []
        omega

lemma scanMatches_zero {α : Type} (pred : α → Bool) (pages : Nat → Except String (List α))
    (sp : Nat) : scanMatches pred pages sp 0 = 0 := rfl

lemma scanMatches_succ {α : Type} (pred : α → Bool) (pages : Nat → Except String (List α))
    (sp k : Nat) :
    scanMatches pred pages sp (k + 1)
      = (match pages sp with
         | .ok rows => (rows.filter pred).length
         | .error _ => 0) + scanMatches pred pages (sp + 1) k := by
  unfold scanMatches
  rw [List.range'_succ, List.flatMap_cons, List.length_append]
  cases pages sp <;> simp

lemma scanPages_early_stop {α : Type} (pred : α → Bool) (limit : Int)
    (pages : Nat → Except String (List α)) :
    ∀ (fuel startPage : Nat) (acc : List α) (k : Nat) (rows : List α),
      k < fuel → pages (startPage + k) = .ok rows →
      (limit * 3 ≤ ((acc.length + scanMatches pred pages startPage (k + 1) : Nat) : Int)
        ∨ rows.length < pageSize) →
      (scanPages pred limit pages fuel startPage acc).2 ≤ k + 1 := by
  intro fuel
  induction fuel with
  | zero => intro sp acc k rows hk; omega
  | succ n ih =>
    intro sp acc k rows hk hpage hcond
    rw [scanPages]
    cases hp : pages sp with
    | error e => simp
    | ok rows0 =>
      simp only []
      split
      · simp
      · rename_i hnot
        simp only []
        cases k with
        | zero =>
          exfalso
          rw [Nat.add_zero] at hpage
          rw [hpage] at hp
          injection hp with hr
          subst hr
          rw [scanMatches_succ, hpage, scanMatches_zero] at hcond
          apply hnot
          rcases hcond with hc | hc
          · left
            rw [List.length_append]
            push_cast at hc ⊢
            omega
          · right; exact hc
        | succ k' =>
          have hpage' : pages (sp + 1 + k') = .ok rows := by
            rw [show sp + 1 + k' = sp + (k' + 1) from by omega]
            exact hpage
          have hcond' : limit * 3
              ≤ (((acc ++ rows0.filter pred).length
                  + scanMatches pred pages (sp + 1) (k' + 1) : Nat) : Int)
              ∨ rows.length < pageSize := by
            rcases hcond with hc | hc
            · left
              rw [scanMatches_succ, hp] at hc
              rw [List.length_append]
              push_cast at hc ⊢
              omega
            · right; exact hc
          have := ih (sp + 1) (acc ++ rows0.filter pred) k' rows (by omega) hpage' hcond'
          omega

lemma length_le_joinSep (sep : String) (parts : List String) {s : String} (h : s ∈ parts) :
    s.length ≤ (joinSep sep parts).length := by
  induction parts with
  | nil => cases h
  | cons x rest ih =>
    cases rest with
    | nil =>
      rw [List.mem_singleton.mp h]
      exact Nat.le_refl _
    | cons y t =>
      rcases List.mem_cons.mp h with rfl | hm
      · show s.length ≤ (s ++ sep ++ joinSep sep (y :: t)).length
        rw [String.length_append, String.length_append]
        omega
      · have := ih hm
        show s.length ≤ (x ++ sep ++ joinSep sep (y :: t)).length
        rw [String.length_append, String.length_append]
        omega

lemma jsonEscape_replicate_a (n : Nat) :
    (List.replicate n 'a').flatMap jsonEscapeChar = List.replicate n 'a' := by
  induction n with
  | zero => rfl
  | succ m ih =>
    rw [List.replicate_succ, List.flatMap_cons, ih]
    rfl

lemma jsonEscape_bigStr : jsonEscape bigStr = bigStr := by
  show String.mk ((List.replicate 25001 'a').flatMap jsonEscapeChar) = bigStr
  rw [jsonEscape_replicate_a]
  rfl

lemma quoteStr_bigStr_length : (quoteStr bigStr).length = 25003 := by
  show (("\"" ++ jsonEscape bigStr) ++ "\"").length = 25003
  rw [String.length_append, String.length_append, jsonEscape_bigStr, bigStr_length]
  rfl

/-! ## Claims -/

/-- C4: `truncateResponse` is the identity on strings of length at most 25000;
on longer strings it returns the first 24900 (= 25000 − 100) characters
followed by the truncation notice, whose text renders the limit with a
thousands separator ("25,000"), so the output length is 24900 plus the
notice length. -/
theorem truncate_spec (s : String) :
    (s.length ≤ 25000 → truncateResponse s = s)
    ∧ (25000 < s.length →
        truncateResponse s = String.mk (s.data.take 24900) ++ truncNotice
        ∧ (truncateResponse s).length = 24900 + truncNotice.length)
    ∧ truncNotice = "\n\n... (응답이 " ++ "25,000" ++ "자 제한으로 잘렸습니다)"
    ∧ toLocaleStringNat 25000 = "25,000" := by
  refine ⟨fun h => truncateResponse_of_le h,
    fun h => ⟨truncateResponse_of_gt h, length_truncateResponse_gt h⟩, rfl, rfl⟩

theorem truncate_spec_witness :
    truncateResponse "짧은 응답" = "짧은 응답"
    ∧ (truncateResponse bigStr).length = 24900 + truncNotice.length :=
  ⟨(truncate_spec "짧은 응답").1 (by decide),
   ((truncate_spec bigStr).2.1 (by rw [bigStr_length]; norm_num)).2⟩

/-- C10: `truncateResponse` is idempotent: a truncated output
(24900 characters plus the 30-character notice) never itself exceeds the
25000-character limit, so a second application is the identity. -/
theorem truncate_idem (s : String) :
    truncateResponse (truncateResponse s) = truncateResponse s :=
  truncateResponse_of_le (length_truncateResponse_le s)

/-- C1 counterexample: a supplied limit of `-5` is applied as `-5` — the
code caps the limit above at 20 but never raises it to 1, so the applied
value is outside `[1, 20]`. -/
theorem limit_clamp_counterexample :
    effLimit (some (-5)) = -5
    ∧ ¬ (1 ≤ effLimit (some (-5)) ∧ effLimit (some (-5)) ≤ 20) := by
  decide

/-- C1 (amended): the effective limit never exceeds 20; an omitted limit and
a supplied limit of 0 both default to 10; a supplied limit ≥ 1 is applied
within `[1, 20]`; but a negative supplied limit is applied unchanged, not
clamped up to 1. -/
theorem limit_clamp_amended (limitArg : Option Int) :
    effLimit limitArg ≤ 20
    ∧ effLimit none = 10
    ∧ effLimit (some 0) = 10
    ∧ (∀ v : Int, 1 ≤ v → 1 ≤ effLimit (some v) ∧ effLimit (some v) ≤ 20)
    ∧ (∀ v : Int, v < 0 → effLimit (some v) = v) := by
  refine ⟨?_, by decide, by decide, ?_, ?_⟩
  · unfold effLimit jsOrDefault
    cases limitArg with
    | none => simp [min_def]
    | some v => simp only [min_def]; split_ifs <;> omega
  · intro v hv
    simp only [effLimit, jsOrDefault, min_def]
    split_ifs <;> omega
  · intro v hv
    simp only [effLimit, jsOrDefault, min_def]
    split_ifs <;> omega

theorem limit_clamp_amended_witness :
    (1 ≤ effLimit (some 7) ∧ effLimit (some 7) ≤ 20) ∧ effLimit (some (-7)) = -7 :=
  ⟨(limit_clamp_amended (some 7)).2.2.2.1 7 (by decide),
   (limit_clamp_amended (some 7)).2.2.2.2 (-7) (by decide)⟩

/-- C2 counterexample: with a requested limit of 1 but two upstream records,
the subway-arrival tool renders both entries — its markdown response
contains a second item block "### 2. " even though min(1, 20) = 1. -/
theorem rendered_count_counterexample :
    effLimit (some 1) = 1
    ∧ strIncludes
        (transitGetSubwayArrival "강남" (some 1) (some "markdown")
          (.ok [sampleArrival1, sampleArrival2])) "### 1. " = true
    ∧ strIncludes
        (transitGetSubwayArrival "강남" (some 1) (some "markdown")
          (.ok [sampleArrival1, sampleArrival2])) "### 2. " = true := by
  set_option maxRecDepth 40000 in
  exact ⟨rfl, rfl, rfl⟩

/-- C2 (amended): the bus-arrival, stop-search and bike-station tools render
at most `effLimit` items, which is at most 20, at most the supplied limit
when that limit is ≥ 1, and exactly 10 when the limit is omitted; the
subway-arrival tool, by contrast, renders one entry per upstream record,
enforcing its limit only through the request URL. -/
theorem rendered_count_amended (query : String) (limitArg : Option Int)
    (busArr : List BusArrival) (stops : List BusStation) (bikes : List BikeStation)
    (h : 1 ≤ effLimit limitArg) :
    (busArrivalsShown limitArg busArr).length ≤ (effLimit limitArg).toNat
    ∧ (busStationsShown query limitArg stops).length ≤ (effLimit limitArg).toNat
    ∧ (bikeStationsShown limitArg bikes).length ≤ (effLimit limitArg).toNat
    ∧ (effLimit limitArg).toNat ≤ 20
    ∧ (∀ v : Int, limitArg = some v → 1 ≤ v → (effLimit limitArg).toNat ≤ v.toNat)
    ∧ (limitArg = none → (effLimit limitArg).toNat = 10)
    ∧ (∀ arrs : List SubwayArrival, (arrs.map subwayArrivalJsonItem).length = arrs.length) := by
  have hb : ∀ {α : Type} (l : List α), (jsSlice l 0 (effLimit limitArg)).length ≤ (effLimit limitArg).toNat := by
    intro α l
    rw [length_jsSlice_zero _ _ (by omega)]
    exact min_le_left _ _
  refine ⟨hb _, hb _, hb _, ?_, ?_, ?_, fun arrs => List.length_map _ _⟩
  · have := effLimit_le_twenty limitArg
    omega
  · intro v hv _
    subst hv
    simp only [effLimit, jsOrDefault, min_def]
    split_ifs <;> omega
  · intro hv
    subst hv
    decide

theorem rendered_count_amended_witness :
    (busArrivalsShown (some 2) []).length ≤ (effLimit (some 2)).toNat
    ∧ (effLimit (some 2)).toNat ≤ 20
    ∧ (effLimit (some 2)).toNat ≤ (2 : Int).toNat :=
  ⟨(rendered_count_amended "강남" (some 2) [] [] [] (by decide)).1,
   (rendered_count_amended "강남" (some 2) [] [] [] (by decide)).2.2.2.1,
   (rendered_count_amended "강남" (some 2) [] [] [] (by decide)).2.2.2.2.1 2 rfl (by decide)⟩

/-- C3: the combined-location query never fails because one of its three
source lookups fails: a failed source is degraded to an empty result set, so
the response equals the one produced when that source succeeds with no
records (hence no failure indicator is surfaced and the other sections still
populate from their own outcomes), and the text form renders the failed
stop-directory section as its fixed empty-state message. -/
theorem combined_degrades_failures (locationArg : String) (fmt : Option String)
    (sub : Except String (List SubwayArrival)) (bus : Except String (List BusStation))
    (bike : Except String (List BikeStation)) (e1 e2 e3 : String)
    (subL : List SubwayArrival) (bikeL : List BikeStation) :
    transitGetCombinedInfo locationArg fmt (.error e1) bus bike
      = transitGetCombinedInfo locationArg fmt (.ok []) bus bike
    ∧ transitGetCombinedInfo locationArg fmt sub (.error e2) bike
      = transitGetCombinedInfo locationArg fmt sub (.ok []) bike
    ∧ transitGetCombinedInfo locationArg fmt sub bus (.error e3)
      = transitGetCombinedInfo locationArg fmt sub bus (.ok [])
    ∧ (∃ p q : String,
        combinedMd locationArg subL [] bikeL
          = p ++ "주변 버스 정류장 정보가 없습니다.\n\n" ++ q) :=
  ⟨rfl, rfl, rfl, combinedMd_busEmpty locationArg subL bikeL⟩

/-- C8 counterexample: a stop record named "ABC" contains the query "abc"
ignoring letter case, yet the stop-directory match predicate rejects it —
stop-name matching is case-sensitive, unlike bike-station matching. -/
theorem match_case_counterexample :
    strIncludes (jsToLower "ABC") (jsToLower "abc") = true
    ∧ busStationMatches "abc" ⟨"ABC", "00000", none⟩ = false := by
  exact ⟨rfl, rfl⟩

/-- C8 (amended): the stop-directory predicate matches on case-sensitive
substring containment of the stop name or exact equality of the stop
identifier, while the bike-directory predicate matches on case-insensitive
substring containment of the station name (both its arguments are lowered,
so further lowering either side does not change the outcome). -/
theorem match_predicate_amended (q : String) (s : BusStation) (b : BikeStation) :
    (q.data <:+: s.STOPS_NM.data → busStationMatches q s = true)
    ∧ (s.STOPS_NO = q → busStationMatches q s = true)
    ∧ (busStationMatches q s = true → q.data <:+: s.STOPS_NM.data ∨ s.STOPS_NO = q)
    ∧ bikeStationMatches q b = bikeStationMatches (jsToLower q) b
    ∧ bikeStationMatches q b
        = bikeStationMatches q ⟨jsToLower b.stationName, b.stationId, b.parkingBikeTotCnt, b.rackTotCnt⟩
    ∧ (bikeStationMatches q b = true ↔ (jsToLower q).data <:+: (jsToLower b.stationName).data) := by
  refine ⟨?_, ?_, ?_, ?_, ?_, ?_⟩
  · intro h
    simp [busStationMatches, strIncludes, h]
  · intro h
    simp [busStationMatches, h]
  · intro h
    simpa [busStationMatches, strIncludes, beq_iff_eq] using h
  · show strIncludes (jsToLower b.stationName) (jsToLower q)
        = strIncludes (jsToLower b.stationName) (jsToLower (jsToLower q))
    rw [jsToLower_idem]
  · show strIncludes (jsToLower b.stationName) (jsToLower q)
        = strIncludes (jsToLower (jsToLower b.stationName)) (jsToLower q)
    rw [jsToLower_idem]
  · simp [bikeStationMatches, strIncludes]

theorem match_predicate_amended_witness :
    busStationMatches "남" sampleStop1 = true
    ∧ busStationMatches "10001" sampleStop1 = true :=
  ⟨(match_predicate_amended "남" sampleStop1 ⟨"x", "y", 0, 0⟩).1 (by decide),
   (match_predicate_amended "10001" sampleStop1 ⟨"x", "y", 0, 0⟩).2.1 (by decide)⟩

/-- C9 counterexample: station-name normalization is not idempotent — for
the input "역역" one application yields "역" and a second application yields
"", so normalizing an already-normalized name can change it again. -/
theorem normalize_idem_counterexample :
    normalizeStation "역역" = "역"
    ∧ normalizeStation (normalizeStation "역역") = ""
    ∧ normalizeStation (normalizeStation "역역") ≠ normalizeStation "역역" := by
  exact ⟨rfl, rfl, by decide⟩

/-- C9 (amended): normalization is idempotent on every input whose
normalized form does not itself end in the suffix character "역" (a second
application strips a surviving trailing "역" again, as "역역" shows); and
"강남역" and "강남" normalize alike, so they route to the same upstream
query string. -/
theorem normalize_amended :
    (∀ s : String, (normalizeStation s).data.getLast? ≠ some '역' →
        normalizeStation (normalizeStation s) = normalizeStation s)
    ∧ normalizeStation "강남역" = normalizeStation "강남"
    ∧ subwayRequestPath "강남역" none = subwayRequestPath "강남" none := by
  refine ⟨?_, rfl, rfl⟩
  intro s h
  show jsTrim (stripStationSuffix (normalizeStation s)) = normalizeStation s
  rw [stripStationSuffix, if_neg h]
  show jsTrim (jsTrim (stripStationSuffix s)) = jsTrim (stripStationSuffix s)
  exact jsTrim_idem _

theorem normalize_amended_witness :
    normalizeStation (normalizeStation "서울역") = normalizeStation "서울역" :=
  normalize_amended.1 "서울역" (by decide)

/-- C6: the stop-directory scanner (page size 1000) issues at most 5 page
fetches, and issues no fetch beyond page `k+1` once the accumulated matches
after page `k+1` reach 3× the effective limit or page `k+1` returns fewer
records than the page size. -/
theorem scanner_bounds (queryArg : String) (limitArg : Option Int)
    (pages : Nat → Except String (List BusStation)) :
    pageSize = 1000
    ∧ (searchScan queryArg limitArg pages).2 ≤ 5
    ∧ (∀ (k : Nat) (rows : List BusStation), k < 5 → pages (1 + k) = .ok rows →
        (effLimit limitArg * 3
            ≤ ((scanMatches (busStationMatches (jsTrim queryArg)) pages 1 (k + 1) : Nat) : Int)
          ∨ rows.length < pageSize) →
        (searchScan queryArg limitArg pages).2 ≤ k + 1) := by
  refine ⟨rfl, scanPages_count_le _ _ _ 5 1 [], ?_⟩
  intro k rows hk hpage hcond
  apply scanPages_early_stop (busStationMatches (jsTrim queryArg)) (effLimit limitArg)
    pages 5 1 [] k rows hk hpage
  simpa using hcond

theorem scanner_bounds_witness :
    (searchScan "강남" none (fun _ => .ok [])).2 ≤ 5
    ∧ (searchScan "강남" none (fun _ => .ok [])).2 ≤ 0 + 1 :=
  ⟨(scanner_bounds "강남" none (fun _ => .ok [])).2.1,
   (scanner_bounds "강남" none (fun _ => .ok [])).2.2 0 [] (by omega) rfl
     (Or.inr (by decide))⟩

lemma stationLeB_trans (q : String) (a b c : BusStation)
    (hab : stationLeB q a b = true) (hbc : stationLeB q b c = true) :
    stationLeB q a c = true := by
  simp only [stationLeB, decide_eq_true_iff, stationCompare] at hab hbc ⊢
  cases ha : jsStartsWith a.STOPS_NM q <;> cases hb : jsStartsWith b.STOPS_NM q <;>
    cases hc : jsStartsWith c.STOPS_NM q <;>
      simp [ha, hb, hc] at hab hbc ⊢ <;> omega

lemma stationLeB_total (q : String) (a b : BusStation) :
    (stationLeB q a b || stationLeB q b a) = true := by
  simp only [stationLeB, stationCompare, Bool.or_eq_true, decide_eq_true_iff]
  cases ha : jsStartsWith a.STOPS_NM q <;> cases hb : jsStartsWith b.STOPS_NM q <;>
    simp [ha, hb] <;> omega

unseal List.merge List.mergeSort in
lemma sortStations_example :
    sortStations "강남" [sampleStop1, sampleStop2, sampleStop3]
      = [sampleStop3, sampleStop1, sampleStop2] := rfl

/-- C7: the stop-search ranking is a permutation of the candidates ordered
by the two-level key — prefix matches before non-matches, then ascending
name length — equal keys keep their original scan order (every subsequence
that is already in order survives as a subsequence: stability), and on the
query "강남" with candidates 강남역, 강남구청, 강남 (in scan order) it
returns 강남, 강남역, 강남구청. -/
theorem ranking_spec (q : String) (l : List BusStation) :
    (sortStations q l).Perm l
    ∧ (sortStations q l).Pairwise (fun a b => stationLeB q a b = true)
    ∧ (∀ a b : BusStation, stationLeB q a b = true ↔
        ((jsStartsWith a.STOPS_NM q = true ∧ jsStartsWith b.STOPS_NM q = false)
          ∨ (jsStartsWith a.STOPS_NM q = jsStartsWith b.STOPS_NM q
              ∧ a.STOPS_NM.length ≤ b.STOPS_NM.length)))
    ∧ (∀ c : List BusStation, c.Pairwise (fun a b => stationLeB q a b = true) →
        c.Sublist l → c.Sublist (sortStations q l))
    ∧ sortStations "강남" [sampleStop1, sampleStop2, sampleStop3]
        = [sampleStop3, sampleStop1, sampleStop2] := by
  refine ⟨List.mergeSort_perm l _,
    List.sorted_mergeSort (stationLeB_trans q) (stationLeB_total q) l,
    ?_,
    fun c hc hs => List.sublist_mergeSort (stationLeB_trans q) (stationLeB_total q) hc hs,
    sortStations_example⟩
  intro a b
  simp only [stationLeB, stationCompare, decide_eq_true_iff]
  cases ha : jsStartsWith a.STOPS_NM q <;> cases hb : jsStartsWith b.STOPS_NM q <;>
    simp [ha, hb]

theorem ranking_spec_witness :
    [sampleStop1, sampleStop2].Sublist
      (sortStations "강남" [sampleStop1, sampleStop2, sampleStop3]) :=
  (ranking_spec "강남" [sampleStop1, sampleStop2, sampleStop3]).2.2.2.1
    [sampleStop1, sampleStop2] (by decide) (by decide)

/-- C5 counterexample: a markdown-form tool response can exceed the
25000-character limit: when the upstream subway fetch throws with a
25001-character message, the tool returns the failure explanation without
truncation. -/
theorem md_bound_counterexample :
    25000 < (transitGetSubwayArrival "강남" none (some "markdown") (.error bigStr)).length := by
  have h : transitGetSubwayArrival "강남" none (some "markdown") (.error bigStr)
      = "❌ 지하철 정보 조회 실패: " ++ bigStr := rfl
  rw [h, String.length_append, bigStr_length]
  have hp : ("❌ 지하철 정보 조회 실패: " : String).length = 16 := rfl
  omega

set_option maxHeartbeats 1000000 in
/-- C5 (amended): every markdown body that reaches the renderer is bounded:
`truncateResponse` output never exceeds the 25000-character limit, and the
combined query and the nonempty-result markdown paths of the subway, bus and
stop-search tools obey the bound; but the early-return failure and
empty-result messages bypass truncation, and the structured json form is
returned exactly as composed — untruncated even beyond the limit, as the
25001-character stop-id instance shows. -/
theorem render_bound_amended :
    (∀ s : String, (truncateResponse s).length ≤ CHARACTER_LIMIT)
    ∧ (∀ (loc : String) (sub : Except String (List SubwayArrival))
        (bus : Except String (List BusStation)) (bike : Except String (List BikeStation)),
        (transitGetCombinedInfo loc (some "markdown") sub bus bike).length ≤ CHARACTER_LIMIT)
    ∧ (∀ (name : String) (lim : Option Int) (arrs : List SubwayArrival), arrs ≠ [] →
        (transitGetSubwayArrival name lim (some "markdown") (.ok arrs)).length ≤ CHARACTER_LIMIT)
    ∧ (∀ (ars : String) (lim : Option Int) (arrs : List BusArrival), arrs ≠ [] →
        (transitGetBusArrival ars lim (some "markdown") (.ok arrs)).length ≤ CHARACTER_LIMIT)
    ∧ (∀ (q : String) (lim : Option Int) (pages : Nat → Except String (List BusStation))
        (results : List BusStation), (searchScan q lim pages).1 = .ok results →
        busStationsShown (jsTrim q) lim results ≠ [] →
        (transitSearchBusStation q lim (some "markdown") pages).length ≤ CHARACTER_LIMIT)
    ∧ CHARACTER_LIMIT < (transitGetBusArrival bigStr none (some "json") (.ok [])).length := by
  refine ⟨length_truncateResponse_le, ?_, ?_, ?_, ?_, ?_⟩
  · intro loc sub bus bike
    cases sub <;> cases bus <;> cases bike <;> exact length_truncateResponse_le _
  · intro name lim arrs h
    cases arrs with
    | nil => exact absurd rfl h
    | cons x xs => exact length_truncateResponse_le _
  · intro ars lim arrs h
    cases arrs with
    | nil => exact absurd rfl h
    | cons x xs => exact length_truncateResponse_le _
  · intro q lim pages results h hne
    unfold transitSearchBusStation
    rw [h]
    simp only []
    rw [if_neg (by decide), if_neg (fun hz => hne (List.length_eq_zero.mp hz))]
    exact length_truncateResponse_le _
  · have h : transitGetBusArrival bigStr none (some "json") (.ok [])
        = jsonObj 0
            [jsonField 1 "stationName" (quoteStr "알 수 없음"),
             jsonField 1 "arsId" (quoteStr bigStr),
             jsonField 1 "count" "0",
             jsonField 1 "arrivals" (jsonArr 1 [])] := rfl
    have hfield : 25003 ≤ (jsonField 1 "arsId" (quoteStr bigStr)).length := by
      show 25003 ≤ (((indentStr 1 ++ quoteStr "arsId") ++ ": ") ++ quoteStr bigStr).length
      rw [String.length_append, quoteStr_bigStr_length]
      omega
    have hmem : jsonField 1 "arsId" (quoteStr bigStr)
        ∈ [jsonField 1 "stationName" (quoteStr "알 수 없음"),
           jsonField 1 "arsId" (quoteStr bigStr),
           jsonField 1 "count" "0",
           jsonField 1 "arrivals" (jsonArr 1 [])] := by
      exact List.mem_cons_of_mem _ (List.mem_cons_self _ _)
    have hjoin := length_le_joinSep ",\n" _ hmem
    rw [h]
    show CHARACTER_LIMIT
        < (((("\x7b\n" ++ joinSep ",\n"
              [jsonField 1 "stationName" (quoteStr "알 수 없음"),
               jsonField 1 "arsId" (quoteStr bigStr),
               jsonField 1 "count" "0",
               jsonField 1 "arrivals" (jsonArr 1 [])]) ++ "\n") ++ indentStr 0) ++ "\x7d").length
    rw [String.length_append, String.length_append, String.length_append, String.length_append]
    rw [CHARACTER_LIMIT]
    omega

set_option maxHeartbeats 1000000 in
theorem render_bound_amended_witness :
    (transitGetSubwayArrival "강남" none (some "markdown") (.ok [sampleArrival1])).length
        ≤ CHARACTER_LIMIT
    ∧ (transitGetBusArrival "16165" none (some "markdown")
        (.ok [⟨"강남역", "16165", "146", none, "3분 후", "10분 후", none, none⟩])).length
        ≤ CHARACTER_LIMIT
    ∧ (transitSearchBusStation "강남" none (some "markdown")
        (fun _ => .ok [sampleStop1])).length ≤ CHARACTER_LIMIT :=
  ⟨render_bound_amended.2.2.1 "강남" none [sampleArrival1] (by decide),
   render_bound_amended.2.2.2.1 "16165" none
     [⟨"강남역", "16165", "146", none, "3분 후", "10분 후", none, none⟩] (by decide),
   render_bound_amended.2.2.2.2.1 "강남" none (fun _ => .ok [sampleStop1]) [sampleStop1]
     rfl
     (by rw [busStationsShown, sortStations, List.mergeSort_singleton]; decide)⟩

end KoreaTransit
